import Mathlib

/-!
Shallow embedding of the three scripts of the `quantum_supremacy` repository:
`kill_port.py` (the Port Reaper), `start_server.py` (the tool-backed static
server launcher) and `start_server_python.py` (the built-in server launcher).

OS interaction (the TCP connect probe, subprocess invocations, the operator's
keyboard input, the process environment) is modelled by explicit oracles
passed in as arguments; the control flow of each Python function is
transcribed branch by branch.
-/

namespace QuantumSupremacy

/-! ## Shared port probing (`start_server.py` and `start_server_python.py`) -/

/-- Outcome of one `sock.connect_ex((host, port))` probe inside the
`try:` block of `check_port_available`: either `connect_ex` returns an error
code (`0` means the connection succeeded, i.e. something is listening), or a
socket-level exception is raised somewhere in the `try:` block. -/
inductive SockResult where
  | ok (code : Int) : SockResult
  | exn : SockResult
deriving DecidableEq, Repr

/-- A network oracle: what the one-shot TCP probe to `(host, port)` does. -/
def Net : Type := String → Nat → SockResult

/-- `check_port_available(host, port)` from `start_server.py` lines 56-65 and
`start_server_python.py` lines 63-72:
creates a socket, `result = sock.connect_ex((host, port))`, returns
`result != 0` (True = port free); `except Exception: return True`. -/
def check_port_available (net : Net) (host : String) (port : Nat) : Bool :=
  match net host port with
  | SockResult.ok code => code != 0
  | SockResult.exn => true

/-- The loop of `find_free_port`: `for i in range(max_attempts)` with
`port = start_port + i`, returning the first port the probe reports free.
`attempts` counts the iterations still to run, `port` is the next port
to try (`start_port + i`). -/
def find_free_port_go (net : Net) (host : String) (port : Nat) :
    Nat → Option Nat
  | 0 => none
  | attempts + 1 =>
    if check_port_available net host port then some port
    else find_free_port_go net host (port + 1) attempts

/-- `find_free_port(host, start_port, max_attempts=10)` from
`start_server.py` lines 67-73 and `start_server_python.py` lines 74-80. -/
def find_free_port (net : Net) (host : String) (start_port : Nat)
    (max_attempts : Nat := 10) : Option Nat :=
  find_free_port_go net host start_port max_attempts

/-- `DEFAULT_PORT = 8000`, shared by both launcher scripts. -/
def DEFAULT_PORT : Nat := 8000

/-- `HOST = "localhost"`, shared by both launcher scripts. -/
def HOST : String := "localhost"

/-! ## `kill_port.py` — the Port Reaper -/

/-- Python exceptions relevant to the Port Reaper model. `otherExn` stands
for any further `Exception` subclass (`FileNotFoundError`,
`subprocess.TimeoutExpired`, ...). -/
inductive PyError where
  | valueError
  | overflowError
  | calledProcessError
  | otherExn
deriving DecidableEq, Repr

/-- Outcome of one `subprocess.run([...])` invocation: either the child
completed with an exit code, or the call itself raised (missing tool,
timeout, ...). -/
inductive RunOutcome where
  | exit (code : Nat) : RunOutcome
  | raise : RunOutcome
deriving DecidableEq, Repr

/-- Semantics of `subprocess.run(..., check=True)`: a non-zero exit code
raises `CalledProcessError`; a failure of the call itself raises some other
`Exception`. -/
def run_checked (r : RunOutcome) : Except PyError Unit :=
  match r with
  | RunOutcome.exit code =>
    if code = 0 then Except.ok () else Except.error PyError.calledProcessError
  | RunOutcome.raise => Except.error PyError.otherExn

/-- `kill_process(pid)` from `kill_port.py` lines 108-122: runs the
platform termination command with `check=True`; `except CalledProcessError:
return False`; `except Exception as e: print(...); return False`; otherwise
`return True`. `killRun` is the oracle for what the subprocess does. -/
def kill_process (pid : Int) (killRun : RunOutcome) : Except PyError Bool :=
  match run_checked killRun with
  | Except.ok () => Except.ok true
  | Except.error PyError.calledProcessError => Except.ok false
  | Except.error _ => Except.ok false

/-- Strip leading and trailing whitespace from a character list, as Python
`int` does to its argument before parsing. -/
def pyStripWs (l : List Char) : List Char :=
  ((l.dropWhile Char.isWhitespace).reverse.dropWhile Char.isWhitespace).reverse

/-- A non-empty all-digit character list read as a decimal number; `none`
otherwise. -/
def pyDigits? (l : List Char) : Option Nat :=
  if l ≠ [] ∧ l.all Char.isDigit then
    some (l.foldl (fun acc c => acc * 10 + (c.toNat - 48)) 0)
  else none

/-- Python `int(s)` on a string: strips surrounding whitespace, allows one
leading sign, then requires a non-empty digit string; `none` models the
`ValueError` raised otherwise (digit-group underscores are not modelled). -/
def pyInt? (s : String) : Option Int :=
  match pyStripWs s.data with
  | '-' :: rest => (pyDigits? rest).map (fun n => -(n : Int))
  | '+' :: rest => (pyDigits? rest).map (fun n => (n : Int))
  | l => (pyDigits? l).map (fun n => (n : Int))

/-- Python `str.lower()` restricted to ASCII case mapping (the inputs the
confirmation flow compares against are ASCII). -/
def pyLower (s : String) : String :=
  String.mk (s.data.map Char.toLower)

/-- CPython's `sock.connect_ex(('localhost', port))` on an `AF_INET`
socket: a port outside 0-65535 raises `OverflowError` ("port must be
0-65535") before any connection attempt; otherwise the call returns the
connect error code, supplied here by the `connect` oracle. -/
def connect_ex (connect : Int → Int) (port : Int) : Except PyError Int :=
  if 0 ≤ port ∧ port ≤ 65535 then Except.ok (connect port)
  else Except.error PyError.overflowError

/-- The ephemeral process record built by `get_process_info`. -/
structure ProcessInfo where
  name : String
  pid : Int
  path : String
deriving DecidableEq, Repr

/-- The OS-facing oracles of one `kill_port.py` run: the arguments after the
script name, the connect error code of the probe for each in-range port
(`connect_ex` wraps it with the out-of-range `OverflowError`), the results
of `find_process_on_port` and `get_process_info` (both already
`Option`-valued in the source), the operator's answer to the confirmation
prompt, and the behaviour of the termination subprocess. -/
structure ReaperEnv where
  argv : List String
  connect : Int → Int
  pidOnPort : Option Int
  procInfo : Int → Option ProcessInfo
  userInput : String
  killRun : RunOutcome

/-- Observable outcome of one `kill_port.py` run that ends without an
uncaught exception. -/
structure ReaperRun where
  port : Int
  prompted : Bool
  killInvoked : Bool
  killResult : Option Bool
  messages : List String
deriving DecidableEq, Repr

/-- `port = int(sys.argv[1]) if len(sys.argv) > 1 else 8000`
(`kill_port.py` line 126). -/
def reaper_port (argv : List String) : Except PyError Int :=
  match argv.head? with
  | some a =>
    match pyInt? a with
    | some n => Except.ok n
    | none => Except.error PyError.valueError
  | none => Except.ok 8000

/-- `main()` from `kill_port.py` lines 124-172, transcribed branch by
branch. The inline probe (lines 134-137) sits outside any `try` block, so
the `OverflowError` that `connect_ex` raises for an out-of-range port
escapes `main` uncaught. `if pid:` is Python truthiness on
`Optional[int]`, false both for `None` and for pid `0`; the confirmation
test is `response.lower() == 'y'`. A normal return means the process exits
with status 0. -/
def kill_port_main (env : ReaperEnv) : Except PyError ReaperRun :=
  match reaper_port env.argv with
  | Except.error e => Except.error e
  | Except.ok port =>
    match connect_ex env.connect port with
    | Except.error e => Except.error e
    | Except.ok result =>
      if result = 0 then
        match env.pidOnPort with
        | some pid =>
          if pid ≠ 0 then
            match env.procInfo pid with
            | some _info =>
              if pyLower env.userInput = "y" then
                match kill_process pid env.killRun with
                | Except.ok b =>
                  Except.ok
                    { port := port, prompted := true, killInvoked := true,
                      killResult := some b,
                      messages :=
                        if b then ["[OK] Процесс завершен!"]
                        else
                          ["[ERROR] Не удалось завершить процесс (возможно, нет прав)"] }
                | Except.error e => Except.error e
              else
                Except.ok
                  { port := port, prompted := true, killInvoked := false,
                    killResult := none, messages := ["Отменено."] }
            | none =>
              Except.ok
                { port := port, prompted := false, killInvoked := false,
                  killResult := none,
                  messages :=
                    [s!"Найден процесс с PID {pid}, но не удалось получить информацию"] }
          else
            Except.ok
              { port := port, prompted := false, killInvoked := false,
                killResult := none,
                messages := [s!"[!] Не удалось найти процесс на порту {port}"] }
        | none =>
          Except.ok
            { port := port, prompted := false, killInvoked := false,
              killResult := none,
              messages := [s!"[!] Не удалось найти процесс на порту {port}"] }
      else
        Except.ok
          { port := port, prompted := false, killInvoked := false,
            killResult := none, messages := [s!"[OK] Порт {port} свободен"] }

/-! Concrete Port Reaper environments used to instantiate theorems. -/

def reaperEnvFreePort : ReaperEnv :=
  { argv := [], connect := fun _ => 1, pidOnPort := none,
    procInfo := fun _ => none, userInput := "", killRun := RunOutcome.raise }

def reaperEnvNonNumeric : ReaperEnv :=
  { argv := ["abc"], connect := fun _ => 1, pidOnPort := none,
    procInfo := fun _ => none, userInput := "", killRun := RunOutcome.raise }

def reaperEnvOutOfRange : ReaperEnv :=
  { argv := ["70000"], connect := fun _ => 1, pidOnPort := none,
    procInfo := fun _ => none, userInput := "", killRun := RunOutcome.raise }

def reaperEnvUppercaseY : ReaperEnv :=
  { argv := [], connect := fun _ => 0, pidOnPort := some 1234,
    procInfo := fun _ =>
      some { name := "python", pid := 1234, path := "python app.py" },
    userInput := "Y", killRun := RunOutcome.exit 0 }

def reaperEnvAnswerNo : ReaperEnv :=
  { argv := [], connect := fun _ => 0, pidOnPort := some 4321,
    procInfo := fun _ =>
      some { name := "node", pid := 4321, path := "node server.js" },
    userInput := "n", killRun := RunOutcome.exit 0 }

def reaperEnvNoInfo : ReaperEnv :=
  { argv := [], connect := fun _ => 0, pidOnPort := some 77,
    procInfo := fun _ => none, userInput := "y", killRun := RunOutcome.exit 0 }

/-! ## `start_server.py` — the tool-backed launcher -/

/-- `check_node_installed()` from `start_server.py` lines 75-90: runs
`node --version`; returns True when the run completed with return code 0;
a non-zero return code, `FileNotFoundError` or `TimeoutExpired` all fall
through to the error message and `return False`. The oracle is `none` when
the `subprocess.run` call raised, otherwise `(returncode, stdout)`. -/
def check_node_installed (nodeRun : Option (Nat × String)) : Bool :=
  match nodeRun with
  | some (returncode, _stdout) => if returncode = 0 then true else false
  | none => false

/-- Behaviour of the blocking `subprocess.run(['npx', 'http-server', ...],
check=True)` call: the child exits with a code (non-zero raises
`CalledProcessError`), or the operator interrupts with Ctrl+C
(`KeyboardInterrupt`). -/
inductive NpxOutcome where
  | exit (code : Nat) : NpxOutcome
  | keyboardInterrupt : NpxOutcome
deriving DecidableEq, Repr

/-- The OS-facing oracles of one `start_server.py` run: the
`node --version` subprocess, the TCP probe, the initial process
environment, and the `npx http-server` subprocess. -/
structure ServeEnv where
  nodeRun : Option (Nat × String)
  net : Net
  osEnv : String → Option String
  npxRun : NpxOutcome

/-- Observable outcome of one `start_server.py` run. `exitCode` is the
process exit status: `sys.exit(n)` gives `n`, and a normal return from
`start_server` also ends the script with status 0. -/
structure ServeRun where
  exitCode : Nat
  chosenPort : Option Nat
  envWrites : List (String × String)
  serverLaunched : Bool
  launchedPort : Option Nat
deriving DecidableEq, Repr

/-- The tail of `start_server()` from the header print onward: starts the
browser thread with the resolved `PORT`, then runs
`npx http-server -p PORT`; `except CalledProcessError: sys.exit(1)`;
`except KeyboardInterrupt: sys.exit(0)`. -/
def run_npx (env : ServeEnv) (PORT : Nat)
    (writes : List (String × String)) : ServeRun :=
  match env.npxRun with
  | NpxOutcome.exit code =>
    if code = 0 then
      { exitCode := 0, chosenPort := some PORT, envWrites := writes,
        serverLaunched := true, launchedPort := some PORT }
    else
      { exitCode := 1, chosenPort := some PORT, envWrites := writes,
        serverLaunched := true, launchedPort := some PORT }
  | NpxOutcome.keyboardInterrupt =>
    { exitCode := 0, chosenPort := some PORT, envWrites := writes,
      serverLaunched := true, launchedPort := some PORT }

/-- `start_server()` from `start_server.py` lines 98-149: check Node.js
(absent: `sys.exit(1)`); probe `DEFAULT_PORT`; on conflict search for a
free port, recording `os.environ['PORT'] = str(PORT)` in `envWrites`
(search failure: `sys.exit(1)`); then hand the resolved `PORT` to the
`npx` launch. The initial environment `env.osEnv` is never consulted. -/
def start_server (env : ServeEnv) : ServeRun :=
  if check_node_installed env.nodeRun = false then
    { exitCode := 1, chosenPort := none, envWrites := [],
      serverLaunched := false, launchedPort := none }
  else if check_port_available env.net HOST DEFAULT_PORT = false then
    match find_free_port env.net HOST DEFAULT_PORT with
    | some free_port => run_npx env free_port [("PORT", toString free_port)]
    | none =>
      { exitCode := 1, chosenPort := none, envWrites := [],
        serverLaunched := false, launchedPort := none }
  else
    run_npx env DEFAULT_PORT []

/-- The port `start_server` resolves when it gets past the prerequisites:
the default port when free, otherwise the result of the search. -/
def resolved_port (net : Net) : Option Nat :=
  if check_port_available net HOST DEFAULT_PORT then some DEFAULT_PORT
  else find_free_port net HOST DEFAULT_PORT

/-! Concrete launcher environments used to instantiate theorems. -/

def serveEnvNpxFails : ServeEnv :=
  { nodeRun := some (0, "v20.0.0"), net := fun _ _ => SockResult.ok 1,
    osEnv := fun _ => none, npxRun := NpxOutcome.exit 2 }

def serveEnvWithOverride : ServeEnv :=
  { nodeRun := some (0, "v20.0.0"), net := fun _ _ => SockResult.ok 1,
    osEnv := fun name => if name = "PORT" then some "9999" else none,
    npxRun := NpxOutcome.exit 0 }

def serveEnvOccupied : ServeEnv :=
  { nodeRun := some (0, "v20.0.0"),
    net := fun _ port => if port = 8000 then SockResult.ok 0
      else SockResult.ok 1,
    osEnv := fun _ => none, npxRun := NpxOutcome.exit 0 }

/-! ## `start_server_python.py` — the built-in server launcher -/

/-- The three `send_header` calls `CustomHTTPRequestHandler.end_headers`
performs (`start_server_python.py` lines 36-41) before delegating to
`super().end_headers()`. -/
def security_headers : List (String × String) :=
  [("X-Content-Type-Options", "nosniff"),
   ("X-Frame-Options", "SAMEORIGIN"),
   ("X-XSS-Protection", "1; mode=block")]

/-- `CustomHTTPRequestHandler.end_headers`: for any response, the headers
the base `SimpleHTTPRequestHandler` already queued are followed by the
three fixed security headers, and `super().end_headers()` then flushes the
whole buffer. -/
def CustomHTTPRequestHandler.end_headers
    (queued : List (String × String)) : List (String × String) :=
  queued ++ security_headers

/-- What `HTTPServer(server_address, CustomHTTPRequestHandler)` does for a
given port: binds, or raises `OSError`. -/
inductive BindOutcome where
  | bound : BindOutcome
  | osError : BindOutcome
deriving DecidableEq, Repr

/-- The OS-facing oracles of one `start_server_python.py` run: the TCP
probe and the bind attempt per port. `serve_forever()` is only left via
`KeyboardInterrupt`, after which the code shuts down and calls
`sys.exit(0)`. -/
structure PyServeEnv where
  net : Net
  bind : Nat → BindOutcome

/-- Observable outcome of one `start_server_python.py` run: the exit
status, the resolved global `PORT`, the port printed by `print_header`,
the port handed to the `open_browser` thread, and the port in
`server_address`. -/
structure PyServeRun where
  exitCode : Nat
  resolvedPort : Option Nat
  bannerPort : Option Nat
  browserPort : Option Nat
  bindPort : Option Nat
deriving DecidableEq, Repr

/-- The tail of the built-in `start_server()` once `PORT` is resolved:
`print_header(PORT)`, `HTTPServer((HOST, PORT), ...)` (`OSError`:
`sys.exit(1)` before the browser thread starts), browser thread with
`args=(PORT,)`, serve until `KeyboardInterrupt`, then `sys.exit(0)`. -/
def py_launch (env : PyServeEnv) (PORT : Nat) : PyServeRun :=
  match env.bind PORT with
  | BindOutcome.osError =>
    { exitCode := 1, resolvedPort := some PORT, bannerPort := some PORT,
      browserPort := none, bindPort := some PORT }
  | BindOutcome.bound =>
    { exitCode := 0, resolvedPort := some PORT, bannerPort := some PORT,
      browserPort := some PORT, bindPort := some PORT }

/-- `start_server()` from `start_server_python.py` lines 88-129: probe
`DEFAULT_PORT`; on conflict run the search (failure: `sys.exit(1)`);
then launch on the resolved `PORT`. -/
def start_server_python (env : PyServeEnv) : PyServeRun :=
  if check_port_available env.net HOST DEFAULT_PORT = false then
    match find_free_port env.net HOST DEFAULT_PORT with
    | some free_port => py_launch env free_port
    | none =>
      { exitCode := 1, resolvedPort := none, bannerPort := none,
        browserPort := none, bindPort := none }
  else
    py_launch env DEFAULT_PORT

def pyServeEnvFree : PyServeEnv :=
  { net := fun _ _ => SockResult.ok 1, bind := fun _ => BindOutcome.bound }

/-! ## Helper lemmas -/

/-- Helper: unfolding lemma for one step of the search loop. -/
theorem find_free_port_go_succ (net : Net) (host : String) (port n : Nat) :
    find_free_port_go net host port (n + 1) =
      if check_port_available net host port then some port
      else find_free_port_go net host (port + 1) n := rfl

/-- Helper: the search returns `none` iff every probed port is reported
occupied. -/
theorem find_free_port_go_eq_none (net : Net) (host : String) :
    ∀ n port, find_free_port_go net host port n = none ↔
      ∀ i, i < n → check_port_available net host (port + i) = false := by
  intro n
  induction n with
  | zero => intro port; simp [find_free_port_go]
  | succ m ih =>
    intro port
    rw [find_free_port_go_succ]
    by_cases h : check_port_available net host port = true
    · simp only [h, if_pos]
      constructor
      · intro hc; exact absurd hc (by simp)
      · intro hall
        have := hall 0 (Nat.succ_pos m)
        simp only [Nat.add_zero] at this
        rw [this] at h; exact absurd h (by simp)
    · have hfalse : check_port_available net host port = false := by
        simpa using h
      rw [if_neg h, ih (port + 1)]
      constructor
      · intro hall i hi
        match i, hi with
        | 0, _ => simpa using hfalse
        | j + 1, hj =>
          have := hall j (Nat.lt_of_succ_lt_succ hj)
          simpa [Nat.add_comm, Nat.add_assoc, Nat.add_left_comm] using this
      · intro hall j hj
        have := hall (j + 1) (Nat.succ_lt_succ hj)
        simpa [Nat.add_comm, Nat.add_assoc, Nat.add_left_comm] using this

/-- Helper: the search returns `some p` iff `p` lies in the scanned range,
the probe reports `p` free, and the probe reports every earlier port in the
range occupied. -/
theorem find_free_port_go_eq_some (net : Net) (host : String) :
    ∀ n port p, find_free_port_go net host port n = some p ↔
      ∃ i, i < n ∧ p = port + i ∧
        check_port_available net host (port + i) = true ∧
        ∀ j, j < i → check_port_available net host (port + j) = false := by
  intro n
  induction n with
  | zero =>
    intro port p
    simp [find_free_port_go]
  | succ m ih =>
    intro port p
    rw [find_free_port_go_succ]
    by_cases h : check_port_available net host port = true
    · simp only [h, if_pos]
      constructor
      · intro hp
        refine ⟨0, Nat.succ_pos m, ?_, ?_, ?_⟩
        · cases hp; simp
        · simpa using h
        · intro j hj; exact absurd hj (Nat.not_lt_zero j)
      · rintro ⟨i, _, hpi, _, hbefore⟩
        cases i with
        | zero => simp [hpi]
        | succ k =>
          have := hbefore 0 (Nat.succ_pos k)
          simp only [Nat.add_zero] at this
          rw [this] at h; exact absurd h (by simp)
    · have hfalse : check_port_available net host port = false := by
        simpa using h
      rw [if_neg h, ih (port + 1)]
      constructor
      · rintro ⟨i, hi, hpi, hfree, hbefore⟩
        refine ⟨i + 1, Nat.succ_lt_succ hi, ?_, ?_, ?_⟩
        · rw [hpi]; ring
        · have : port + 1 + i = port + (i + 1) := by ring
          rwa [this] at hfree
        · intro j hj
          cases j with
          | zero => simpa using hfalse
          | succ k =>
            have := hbefore k (Nat.lt_of_succ_lt_succ hj)
            have heq : port + 1 + k = port + (k + 1) := by ring
            rwa [heq] at this
      · rintro ⟨i, hi, hpi, hfree, hbefore⟩
        cases i with
        | zero =>
          exfalso
          simp only [Nat.add_zero] at hfree
          rw [hfree] at hfalse; exact absurd hfalse (by simp)
        | succ k =>
          refine ⟨k, Nat.lt_of_succ_lt_succ hi, ?_, ?_, ?_⟩
          · rw [hpi]; ring
          · have : port + (k + 1) = port + 1 + k := by ring
            rwa [this] at hfree
          · intro j hj
            have := hbefore (j + 1) (Nat.succ_lt_succ hj)
            have heq : port + (j + 1) = port + 1 + j := by ring
            rwa [heq] at this

/-- Helper (shared): `kill_process` always returns, and returns `true`
exactly when the termination command exited zero. -/
theorem kill_process_ok (pid : Int) (r : RunOutcome) :
    ∃ b, kill_process pid r = Except.ok b ∧ (b = true ↔ r = RunOutcome.exit 0) := by
  cases r with
  | exit code =>
    by_cases h : code = 0
    · subst h; exact ⟨true, rfl, by simp⟩
    · refine ⟨false, ?_, ?_⟩
      · simp [kill_process, run_checked, h]
      · simp [h]
  | raise => exact ⟨false, rfl, by simp⟩

/-- Helper (shared): the fields of the `npx` launch tail that do not depend
on the subprocess outcome. -/
theorem run_npx_fields (env : ServeEnv) (PORT : Nat)
    (writes : List (String × String)) :
    (run_npx env PORT writes).envWrites = writes ∧
    (run_npx env PORT writes).launchedPort = some PORT ∧
    (run_npx env PORT writes).chosenPort = some PORT := by
  unfold run_npx
  cases env.npxRun with
  | exit code => by_cases h : code = 0 <;> simp [h]
  | keyboardInterrupt => exact ⟨rfl, rfl, rfl⟩

/-- Helper (shared): the exit status of the `npx` launch tail as a function
of the subprocess outcome. -/
theorem run_npx_exitCode (env : ServeEnv) (PORT : Nat)
    (writes : List (String × String)) :
    ((run_npx env PORT writes).exitCode = 1 ↔
      ∃ c, env.npxRun = NpxOutcome.exit c ∧ c ≠ 0) ∧
    ((run_npx env PORT writes).exitCode = 0 ↔
      env.npxRun = NpxOutcome.exit 0 ∨
        env.npxRun = NpxOutcome.keyboardInterrupt) := by
  unfold run_npx
  cases hn : env.npxRun with
  | exit code => by_cases h : code = 0 <;> simp [h]
  | keyboardInterrupt => simp

/-! ## Claim theorems -/

/-- C1: `find_free_port` linearly scans
`start_port, ..., start_port + max_attempts - 1` and returns the first port
the probe reports free; it returns `none` exactly when the probe reports
every port in the range occupied. -/
theorem find_free_port_first_free (net : Net) (host : String)
    (start_port max_attempts : Nat) :
    (∀ p, find_free_port net host start_port max_attempts = some p ↔
      start_port ≤ p ∧ p < start_port + max_attempts ∧
      check_port_available net host p = true ∧
      ∀ q, start_port ≤ q → q < p → check_port_available net host q = false) ∧
    (find_free_port net host start_port max_attempts = none ↔
      ∀ i, i < max_attempts →
        check_port_available net host (start_port + i) = false) := by
  constructor
  · intro p
    rw [find_free_port, find_free_port_go_eq_some]
    constructor
    · rintro ⟨i, hi, hpi, hfree, hbefore⟩
      subst hpi
      refine ⟨Nat.le_add_right _ _, by omega, hfree, ?_⟩
      intro q hq1 hq2
      have hlt : q - start_port < i := by omega
      have h := hbefore (q - start_port) hlt
      have heq : start_port + (q - start_port) = q := by omega
      rwa [heq] at h
    · rintro ⟨hle, hlt, hfree, hbefore⟩
      refine ⟨p - start_port, by omega, by omega, ?_, ?_⟩
      · have heq : start_port + (p - start_port) = p := by omega
        rwa [heq]
      · intro j hj
        exact hbefore (start_port + j) (Nat.le_add_right _ _) (by omega)
  · rw [find_free_port]
    exact find_free_port_go_eq_none net host max_attempts start_port

/-- C1 witness: with a probe that reports every port free (connect code 1,
refused), `find_free_port(host, 8000, 10)` returns 8000. -/
theorem find_free_port_first_free_witness :
    find_free_port (fun _ _ => SockResult.ok 1) "localhost" 8000 10 =
      some 8000 := by
  refine ((find_free_port_first_free (fun _ _ => SockResult.ok 1) "localhost"
    8000 10).1 8000).mpr ⟨Nat.le_refl _, by omega, rfl, ?_⟩
  intro q hq1 hq2
  omega

/-- C3: the probe returns `false` exactly when the TCP connect succeeded
(`connect_ex` returned 0); any non-zero code (refused, timed out) and any
socket-level exception yield `true` — the fail-open policy. -/
theorem check_port_available_fail_open (net : Net) (host : String)
    (port : Nat) :
    (check_port_available net host port = false ↔
      net host port = SockResult.ok 0) ∧
    (net host port = SockResult.exn →
      check_port_available net host port = true) := by
  unfold check_port_available
  cases h : net host port with
  | ok code =>
    refine ⟨⟨fun hc => ?_, fun hc => ?_⟩, fun hx => nomatch hx⟩
    · have hc0 : code = 0 := by simpa using hc
      rw [hc0]
    · injection hc with hc
      simp [hc]
  | exn =>
    refine ⟨⟨fun hc => ?_, fun hc => ?_⟩, fun _ => rfl⟩
    · exact absurd hc (by simp)
    · exact absurd hc (by simp)

/-- C3 witness: a probe raising a socket-level exception is reported
free. -/
theorem check_port_available_fail_open_witness :
    check_port_available (fun _ _ => SockResult.exn) "localhost" 8000 =
      true :=
  (check_port_available_fail_open (fun _ _ => SockResult.exn) "localhost"
    8000).2 rfl

/-- C4: for every pid and every behaviour of the termination subprocess,
`kill_process` returns a boolean instead of raising: `true` exactly on exit
code zero, `false` on a non-zero exit (`CalledProcessError`) and on any
invocation error (missing tool, timeout, ...). -/
theorem kill_process_never_raises (pid : Int) (r : RunOutcome) :
    ∃ b, kill_process pid r = Except.ok b ∧ (b = true ↔ r = RunOutcome.exit 0) :=
  kill_process_ok pid r

/-- C2 counterexample: with an occupied port, a found pid and available
process info, the operator input "Y" — which is not the affirmative token
"y" — still invokes `kill_process`, because the code compares
`response.lower()` against the token. -/
theorem kill_port_confirm_accepts_uppercase :
    reaperEnvUppercaseY.userInput ≠ "y" ∧
    ∃ run, kill_port_main reaperEnvUppercaseY = Except.ok run ∧
      run.killInvoked = true := by
  refine ⟨by decide, ⟨_, rfl, rfl⟩⟩

/-- C2 (amended): in the occupied-port, pid-found, info-available scenario,
`kill_process` is invoked exactly when the operator input lowercases to the
affirmative token "y" (so "y" and "Y" proceed); every other input aborts
without invoking it. -/
theorem kill_port_confirm_lower_y (env : ReaperEnv) (port pid : Int)
    (info : ProcessInfo)
    (hport : reaper_port env.argv = Except.ok port)
    (hocc : connect_ex env.connect port = Except.ok 0)
    (hpid : env.pidOnPort = some pid) (hpid0 : pid ≠ 0)
    (hinfo : env.procInfo pid = some info) :
    ∃ run, kill_port_main env = Except.ok run ∧ run.prompted = true ∧
      (run.killInvoked = true ↔ pyLower env.userInput = "y") := by
  by_cases hy : pyLower env.userInput = "y"
  · obtain ⟨b, hb, _⟩ := kill_process_ok pid env.killRun
    simp [kill_port_main, hport, hocc, hpid, hpid0, hinfo, hy, hb]
  · simp [kill_port_main, hport, hocc, hpid, hpid0, hinfo, hy]

/-- C2 witness: a run where the operator answers "n" keeps
`kill_process` uninvoked. -/
theorem kill_port_confirm_lower_y_witness :
    ∃ run, kill_port_main reaperEnvAnswerNo = Except.ok run ∧
      run.prompted = true ∧
      (run.killInvoked = true ↔ pyLower reaperEnvAnswerNo.userInput = "y") :=
  kill_port_confirm_lower_y reaperEnvAnswerNo 8000 4321
    { name := "node", pid := 4321, path := "node server.js" }
    rfl rfl rfl (by decide) rfl

/-- C5 counterexample: two invocations that end in an uncaught exception
(stack trace, non-zero exit) instead of a status-0 path with readable
messages. `python kill_port.py abc` makes `int(sys.argv[1])` raise
`ValueError` (line 126 is outside any `try`); `python kill_port.py 70000`
parses, and the unguarded inline socket probe then raises `OverflowError`
for the out-of-range port. -/
theorem kill_port_main_bad_port_raises :
    kill_port_main reaperEnvNonNumeric = Except.error PyError.valueError ∧
    kill_port_main reaperEnvOutOfRange = Except.error PyError.overflowError :=
  ⟨rfl, rfl⟩

/-- C5 (amended): whenever the PORT argument is absent or parses as a
Python integer within the socket layer's accepted range 0-65535, `main`
runs to completion with no uncaught exception, printing a status message
and exiting 0; a non-numeric PORT argument raises `ValueError` and a
parseable out-of-range one raises `OverflowError` out of `main`. -/
theorem kill_port_main_ok_on_parsed (env : ReaperEnv)
    (h : env.argv = [] ∨
      ∃ a rest, env.argv = a :: rest ∧
        ∃ n, pyInt? a = some n ∧ 0 ≤ n ∧ n ≤ 65535) :
    ∃ run, kill_port_main env = Except.ok run ∧ run.messages ≠ [] := by
  obtain ⟨port, hport, hlo, hhi⟩ :
      ∃ p, reaper_port env.argv = Except.ok p ∧ 0 ≤ p ∧ p ≤ 65535 := by
    rcases h with h | ⟨a, rest, ha, n, hn, h0, h65⟩
    · exact ⟨8000, by simp [reaper_port, h], by omega, by omega⟩
    · exact ⟨n, by simp [reaper_port, ha, hn], h0, h65⟩
  have hc : connect_ex env.connect port = Except.ok (env.connect port) := by
    simp [connect_ex, hlo, hhi]
  by_cases hocc : env.connect port = 0
  · cases hpid : env.pidOnPort with
    | none => simp [kill_port_main, hport, hc, hocc, hpid]
    | some pid =>
      by_cases hpid0 : pid = 0
      · simp [kill_port_main, hport, hc, hocc, hpid, hpid0]
      · cases hinfo : env.procInfo pid with
        | none => simp [kill_port_main, hport, hc, hocc, hpid, hpid0, hinfo]
        | some info =>
          by_cases hy : pyLower env.userInput = "y"
          · obtain ⟨b, hb, _⟩ := kill_process_ok pid env.killRun
            cases b <;>
              simp [kill_port_main, hport, hc, hocc, hpid, hpid0, hinfo, hy,
                hb]
          · simp [kill_port_main, hport, hc, hocc, hpid, hpid0, hinfo, hy]
  · simp [kill_port_main, hport, hc, hocc]

/-- C5 witness: the no-argument invocation against a free port completes
normally with a status message. -/
theorem kill_port_main_ok_on_parsed_witness :
    ∃ run, kill_port_main reaperEnvFreePort = Except.ok run ∧
      run.messages ≠ [] :=
  kill_port_main_ok_on_parsed reaperEnvFreePort (Or.inl rfl)

/-- C9: when the port is occupied, a pid was found, but
`get_process_info` returned no record, the run reports the pid and ends
without ever prompting for confirmation or invoking `kill_process`. -/
theorem kill_port_no_info_no_kill (env : ReaperEnv) (port pid : Int)
    (hport : reaper_port env.argv = Except.ok port)
    (hocc : connect_ex env.connect port = Except.ok 0)
    (hpid : env.pidOnPort = some pid) (hpid0 : pid ≠ 0)
    (hinfo : env.procInfo pid = none) :
    ∃ run, kill_port_main env = Except.ok run ∧
      run.prompted = false ∧ run.killInvoked = false := by
  simp [kill_port_main, hport, hocc, hpid, hpid0, hinfo]

/-- C9 witness: pid 77 is found but has no process info; even with the
operator input "y" queued, no prompt happens and `kill_process` is not
invoked. -/
theorem kill_port_no_info_no_kill_witness :
    ∃ run, kill_port_main reaperEnvNoInfo = Except.ok run ∧
      run.prompted = false ∧ run.killInvoked = false :=
  kill_port_no_info_no_kill reaperEnvNoInfo 8000 77 rfl rfl rfl (by decide)
    rfl

/-- C6: every response flushed through
`CustomHTTPRequestHandler.end_headers` carries the three fixed security
headers with their fixed values, and those three are exactly the headers
the override adds to whatever the base handler queued. -/
theorem end_headers_security (queued : List (String × String)) :
    ("X-Content-Type-Options", "nosniff") ∈
      CustomHTTPRequestHandler.end_headers queued ∧
    ("X-Frame-Options", "SAMEORIGIN") ∈
      CustomHTTPRequestHandler.end_headers queued ∧
    ("X-XSS-Protection", "1; mode=block") ∈
      CustomHTTPRequestHandler.end_headers queued ∧
    CustomHTTPRequestHandler.end_headers queued = queued ++
      [("X-Content-Type-Options", "nosniff"),
       ("X-Frame-Options", "SAMEORIGIN"),
       ("X-XSS-Protection", "1; mode=block")] := by
  refine ⟨?_, ?_, ?_, rfl⟩ <;>
    simp [CustomHTTPRequestHandler.end_headers, security_headers]

/-- C7 counterexample: Node.js is present and port 8000 is free, yet the
launcher exits with status 1 because the spawned `npx http-server` fails
with a non-zero code (`CalledProcessError` path) — a third exit-1 path the
claim's "exactly when" excludes. -/
theorem start_server_exit_one_extra_path :
    check_node_installed serveEnvNpxFails.nodeRun = true ∧
    check_port_available serveEnvNpxFails.net HOST DEFAULT_PORT = true ∧
    (start_server serveEnvNpxFails).exitCode = 1 :=
  ⟨rfl, rfl, rfl⟩

/-- C7 (amended): the tool-backed launcher exits with status 1 exactly when
Node.js is absent, or the port resolution fails (default port occupied and
the ten-attempt search exhausted), or the spawned server subprocess exits
non-zero; it exits with status 0 exactly when the prerequisites hold and
the subprocess either completes with code 0 or is ended by the operator's
keyboard interrupt. -/
theorem start_server_exit_codes (env : ServeEnv) :
    ((start_server env).exitCode = 1 ↔
      check_node_installed env.nodeRun = false
      ∨ (check_node_installed env.nodeRun = true ∧
          resolved_port env.net = none)
      ∨ (check_node_installed env.nodeRun = true ∧
          (resolved_port env.net).isSome ∧
          ∃ c, env.npxRun = NpxOutcome.exit c ∧ c ≠ 0)) ∧
    ((start_server env).exitCode = 0 ↔
      check_node_installed env.nodeRun = true ∧
      (resolved_port env.net).isSome ∧
      (env.npxRun = NpxOutcome.exit 0 ∨
        env.npxRun = NpxOutcome.keyboardInterrupt)) := by
  cases hn : check_node_installed env.nodeRun with
  | false => simp [start_server, hn]
  | true =>
    cases hc : check_port_available env.net HOST DEFAULT_PORT with
    | false =>
      cases hs : find_free_port env.net HOST DEFAULT_PORT with
      | none => simp [start_server, resolved_port, hn, hc, hs]
      | some p =>
        have h1 := run_npx_exitCode env p [("PORT", toString p)]
        simp [start_server, resolved_port, hn, hc, hs, h1.1, h1.2]
    | true =>
      have h1 := run_npx_exitCode env DEFAULT_PORT []
      simp [start_server, resolved_port, hn, hc, h1.1, h1.2]

/-- C8 counterexample: with `PORT=9999` present in the initial environment
and port 8000 free, the launcher still serves on 8000 — the environment
variable cannot override the port, because the code never reads it. -/
theorem start_server_ignores_env_override :
    serveEnvWithOverride.osEnv "PORT" = some "9999" ∧
    (start_server serveEnvWithOverride).launchedPort = some 8000 :=
  ⟨rfl, rfl⟩

/-- C8 (amended): when the default port is occupied and the search finds a
free port, the launcher writes the chosen port to the `PORT` environment
variable for the spawned runtime invocation; it never reads the variable —
the whole run is invariant under any change of the initial environment, so
the variable offers the operator no override. -/
theorem start_server_writes_never_reads_env (env : ServeEnv) (p : Nat)
    (hnode : check_node_installed env.nodeRun = true)
    (hocc : check_port_available env.net HOST DEFAULT_PORT = false)
    (hfind : find_free_port env.net HOST DEFAULT_PORT = some p) :
    ("PORT", toString p) ∈ (start_server env).envWrites ∧
    ∀ e₂ : String → Option String,
      start_server { env with osEnv := e₂ } = start_server env := by
  constructor
  · have hw := (run_npx_fields env p [("PORT", toString p)]).1
    simp [start_server, hnode, hocc, hfind, hw]
  · intro e₂
    rfl

/-- C8 witness: with 8000 occupied and 8001 free, the run records the
write `PORT=8001` and is unchanged under a different initial
environment. -/
theorem start_server_writes_never_reads_env_witness :
    ("PORT", toString 8001) ∈ (start_server serveEnvOccupied).envWrites ∧
    ∀ e₂ : String → Option String,
      start_server { serveEnvOccupied with osEnv := e₂ } =
        start_server serveEnvOccupied :=
  start_server_writes_never_reads_env serveEnvOccupied 8001 rfl rfl rfl

/-- C10: whenever the built-in launcher resolves a port, that single value
is the one printed in the banner, the one handed to the browser-open
thread (once the server is up), and the one the HTTP server binds to; and
it equals the default port when free, else the search result. -/
theorem start_server_python_port_consistent (env : PyServeEnv) (p : Nat)
    (hres : (start_server_python env).resolvedPort = some p) :
    (start_server_python env).bannerPort = some p ∧
    (start_server_python env).bindPort = some p ∧
    ((start_server_python env).exitCode = 0 →
      (start_server_python env).browserPort = some p) ∧
    resolved_port env.net = some p := by
  cases hc : check_port_available env.net HOST DEFAULT_PORT with
  | false =>
    cases hs : find_free_port env.net HOST DEFAULT_PORT with
    | none => simp [start_server_python, hc, hs] at hres
    | some q =>
      cases hb : env.bind q with
      | osError =>
        simp [start_server_python, py_launch, hc, hs, hb] at hres ⊢
        simp [resolved_port, hc, hs, hres]
      | bound =>
        simp [start_server_python, py_launch, hc, hs, hb] at hres ⊢
        simp [resolved_port, hc, hs, hres]
  | true =>
    cases hb : env.bind DEFAULT_PORT with
    | osError =>
      simp [start_server_python, py_launch, hc, hb] at hres ⊢
      subst hres
      simp [resolved_port, hc]
    | bound =>
      simp [start_server_python, py_launch, hc, hb] at hres ⊢
      subst hres
      simp [resolved_port, hc]

/-- C10 witness: with every port free and a successful bind, the run
resolves 8000 and uses it for the banner, the browser thread and the
bind. -/
theorem start_server_python_port_consistent_witness :
    (start_server_python pyServeEnvFree).bannerPort = some 8000 ∧
    (start_server_python pyServeEnvFree).bindPort = some 8000 ∧
    ((start_server_python pyServeEnvFree).exitCode = 0 →
      (start_server_python pyServeEnvFree).browserPort = some 8000) ∧
    resolved_port pyServeEnvFree.net = some 8000 :=
  start_server_python_port_consistent pyServeEnvFree 8000 rfl

end QuantumSupremacy
